import Mathlib

/-!
Shallow embedding of the inventory ledger of the hokela-game-engine
repository (src/api/routes/inventory.js and the atomic spin-results
variant shown in src/backend/README.md).

JavaScript numbers holding stock counts are modelled as `Int` (the routes
perform only integer arithmetic on them).  Each Express route handler is
embedded as a pure function from the relevant state (a single
`product_inventory` row, or a list of rows standing for the table) and the
request body to the new state paired with the response.
-/

/-- One row of the `product_inventory` table (see the swagger schema and
the SELECTed columns in src/api/routes/inventory.js). -/
structure InventoryRecord where
  product_id : String
  product_name : String
  agent_id : String
  agent_name : String
  location : String
  total_quantity : Int
  available_quantity : Int
  distributed_quantity : Int
  deriving Repr, DecidableEq

/-- The ledger invariant from the spec:
`totalQuantity = availableQuantity + distributedQuantity` with both parts
nonnegative. -/
def Invariant (r : InventoryRecord) : Prop :=
  r.total_quantity = r.available_quantity + r.distributed_quantity ∧
    0 ≤ r.available_quantity ∧ 0 ≤ r.distributed_quantity

instance (r : InventoryRecord) : Decidable (Invariant r) := by
  unfold Invariant; infer_instance

/-- Response of POST /inventory/distribute, after the not-found and
missing-field guards have passed.  `insufficientStock` is the 400
`'Insufficient stock'` body carrying `available` and `requested`;
`success` carries `remaining_quantity` and `distributed_quantity`. -/
inductive DistributeOutcome where
  | insufficientStock (available requested : Int)
  | success (remaining distributed : Int)
  deriving Repr, DecidableEq

/-- HTTP status attached to each distribute outcome by the route. -/
def distributeStatus : DistributeOutcome → Nat
  | .insufficientStock _ _ => 400
  | .success _ _ => 200

/-- Message attached to the distribute outcome by the route. -/
def distributeMessage : DistributeOutcome → Option String
  | .insufficientStock _ _ => some "Insufficient stock"
  | .success _ _ => none

/-- Core of POST /inventory/distribute
(src/api/routes/inventory.js:414-440): guard
`item.available_quantity < quantity`, otherwise overwrite the row with
`newAvailable = available - quantity` and
`newDistributed = distributed + quantity`.  Returns the row after the
call together with the response. -/
def distributeStep (item : InventoryRecord) (quantity : Int) :
    InventoryRecord × DistributeOutcome :=
  if item.available_quantity < quantity then
    (item, .insufficientStock item.available_quantity quantity)
  else
    let newAvailable := item.available_quantity - quantity
    let newDistributed := item.distributed_quantity + quantity
    ({ item with
        available_quantity := newAvailable,
        distributed_quantity := newDistributed },
      .success newAvailable newDistributed)

/-- A sample row used by the concrete theorems: 10 units assigned, none
distributed yet. -/
def sampleRecord : InventoryRecord :=
  { product_id := "p1", product_name := "Water Bottle", agent_id := "a1",
    agent_name := "Agent One", location := "Nairobi",
    total_quantity := 10, available_quantity := 10,
    distributed_quantity := 0 }

example : Invariant sampleRecord := by decide

example :
    (distributeStep sampleRecord 1).2 = .success 9 1 := by decide

/-- The `total_quantity || existing[0].total_quantity` expression in the
PUT /inventory/:id handler (src/api/routes/inventory.js:253): a supplied
body field is used only when it is truthy, so a supplied `0` falls back
to the stored total.  `none` models an absent (`undefined`) body field. -/
def effectiveTotal (existing : InventoryRecord) (total_quantity : Option Int) : Int :=
  match total_quantity with
  | some t => if t = 0 then existing.total_quantity else t
  | none => existing.total_quantity

/-- Core of PUT /inventory/:id (src/api/routes/inventory.js:240-278),
restricted to the quantity fields.  `total_quantity !== undefined` sets
the stored total to any supplied value;
`available_quantity !== undefined` sets the stored available quantity and
recomputes `distributed_quantity =
(total_quantity || existing.total_quantity) - available_quantity`.
Absent fields leave their columns untouched. -/
def adjustUpdate (existing : InventoryRecord)
    (total_quantity available_quantity : Option Int) : InventoryRecord :=
  match available_quantity with
  | some a =>
      { existing with
          total_quantity :=
            match total_quantity with
            | some t => t
            | none => existing.total_quantity,
          available_quantity := a,
          distributed_quantity := effectiveTotal existing total_quantity - a }
  | none =>
      match total_quantity with
      | some t => { existing with total_quantity := t }
      | none => existing

/-- Response of POST /inventory/restock after the not-found guard.
`missingRequired` is the 400 `'... quantity are required'` rejection that
also fires when the body's quantity is the falsy `0`. -/
inductive RestockOutcome where
  | missingRequired
  | success (new_available new_total : Int)
  deriving Repr, DecidableEq

/-- Core of POST /inventory/restock (src/api/routes/inventory.js:473-507)
for an existing row: the only quantity validation is JavaScript
truthiness (`!quantity`), which rejects `0` but lets any nonzero
integer through; then `available_quantity += quantity` and
`total_quantity += quantity`. -/
def restockRoute (item : InventoryRecord) (quantity : Int) :
    InventoryRecord × RestockOutcome :=
  if quantity = 0 then
    (item, .missingRequired)
  else
    let newAvailable := item.available_quantity + quantity
    let newTotal := item.total_quantity + quantity
    ({ item with
        available_quantity := newAvailable,
        total_quantity := newTotal },
      .success newAvailable newTotal)

/-- Request body of POST /inventory (src/api/routes/inventory.js:156). -/
structure AssignBody where
  product_id : String
  product_name : String
  total_quantity : Int
  agent_id : String
  agent_name : String
  location : String
  deriving Repr, DecidableEq

/-- The `!field` truthiness validation of POST /inventory
(src/api/routes/inventory.js:158): empty strings and a zero
`total_quantity` are falsy and rejected; negative quantities are truthy
and pass. -/
def assignBodyValid (b : AssignBody) : Bool :=
  b.product_id != "" && b.product_name != "" && b.total_quantity != 0 &&
    b.agent_id != "" && b.agent_name != "" && b.location != ""

/-- Whether a row for the `(agent_id, product_id)` pair already exists in
the table (the duplicate-check SELECT at src/api/routes/inventory.js:165). -/
def pairExists (store : List InventoryRecord) (agent_id product_id : String) : Bool :=
  store.any fun r => r.agent_id == agent_id && r.product_id == product_id

/-- Response of POST /inventory.  `missingRequired` and `duplicate` are
the two 400 rejections; `insertError` is the 500 path taken when the
INSERT statement itself fails. -/
inductive AssignOutcome where
  | missingRequired
  | duplicate
  | insertError
  deriving Repr, DecidableEq

/-- Column list of the INSERT in POST /inventory
(src/api/routes/inventory.js:176-182). -/
def assignInsertColumns : List String :=
  ["product_id", "product_name", "total_quantity", "available_quantity",
   "distributed_quantity", "agent_id", "agent_name", "location"]

/-- Number of value slots in the same INSERT's VALUES clause,
`VALUES (?, ?, ?, ?, 0)`: four placeholders plus the literal `0`. -/
def assignInsertValueSlots : Nat := 5

/-- Number of `?` placeholders in the VALUES clause. -/
def assignInsertPlaceholders : Nat := 4

/-- Number of parameters bound to the INSERT
(`[product_id, product_name, total_quantity, total_quantity, agent_id,
agent_name, location]`). -/
def assignInsertParamCount : Nat := 7

/-- POST /inventory (src/api/routes/inventory.js:154-194): validate the
body, reject a duplicate `(agent_id, product_id)` pair, then run the
INSERT.  The INSERT names `assignInsertColumns.length` columns but
supplies only `assignInsertValueSlots` values (and binds
`assignInsertParamCount` parameters to `assignInsertPlaceholders`
placeholders), so the statement is rejected by the datastore, the catch
block answers 500, and no row is ever written. -/
def createInventoryRoute (store : List InventoryRecord) (b : AssignBody) :
    List InventoryRecord × AssignOutcome :=
  if ¬ assignBodyValid b then
    (store, .missingRequired)
  else if pairExists store b.agent_id b.product_id then
    (store, .duplicate)
  else
    (store, .insertError)

/-- Body of the 200 response of POST /inventory/check-stock. -/
structure StockResponse where
  available : Bool
  quantity : Int
  product_name : Option String
  deriving Repr, DecidableEq

/-- Response of POST /inventory/check-stock: the 400 missing-field
rejection or the 200 stock report. -/
inductive CheckStockResult where
  | missingRequired
  | ok (resp : StockResponse)
  deriving Repr, DecidableEq

/-- HTTP status of a check-stock response. -/
def checkStockStatus : CheckStockResult → Nat
  | .missingRequired => 400
  | .ok _ => 200

/-- POST /inventory/check-stock (src/api/routes/inventory.js:326-356):
one SELECT with `available_quantity > 0` in its WHERE clause and no
UPDATE; an empty result — missing pair or depleted pair alike — yields
`{available: false, quantity: 0, product_name: null}`. -/
def checkStockRoute (store : List InventoryRecord) (product_id agent_id : String) :
    List InventoryRecord × CheckStockResult :=
  if product_id = "" ∨ agent_id = "" then
    (store, .missingRequired)
  else
    match store.find? (fun r =>
        r.product_id == product_id && r.agent_id == agent_id &&
          decide (0 < r.available_quantity)) with
    | none => (store, .ok ⟨false, 0, none⟩)
    | some r => (store, .ok ⟨true, r.available_quantity, some r.product_name⟩)

/-!
Interleaving model of concurrent POST /inventory/distribute calls.

The handler issues two separate statements against the row: a SELECT that
captures `item`, then — after the guard on the captured value — an UPDATE
that writes the absolute values `newAvailable`/`newDistributed` computed
from that capture.  Nothing orders the two statements of one request
against those of another (no transaction, no FOR UPDATE, no guarded
WHERE), so a concurrent execution is an arbitrary interleaving of the
per-request SELECT and UPDATE steps.
-/

/-- Progress of one in-flight distribute request: the row snapshot its
SELECT captured (if it has run) and its response (if it has finished). -/
structure DistCall where
  snapshot : Option InventoryRecord
  outcome : Option DistributeOutcome
  deriving Repr, DecidableEq

/-- A distribute request that has not run any statement yet. -/
def DistCall.pending : DistCall := ⟨none, none⟩

/-- The shared row plus every in-flight request. -/
structure ConcState where
  record : InventoryRecord
  calls : List DistCall
  deriving Repr, DecidableEq

/-- Run the next statement of request `i` (each request reserves one
unit, `quantity = 1`, the route's default).  First activation performs
the SELECT, storing a snapshot of the current row; second activation
evaluates the guard against the *snapshot* and, on success, overwrites
the shared row with values computed from the snapshot — exactly the
read-then-write pair of src/api/routes/inventory.js:405-433. -/
def concStep (s : ConcState) (i : Nat) : ConcState :=
  match s.calls[i]? with
  | none => s
  | some c =>
    match c.snapshot with
    | none =>
        { s with calls := s.calls.set i ({ c with snapshot := some s.record }) }
    | some item =>
      match c.outcome with
      | some _ => s
      | none =>
        if item.available_quantity < 1 then
          let c' := { c with outcome := some (.insufficientStock item.available_quantity 1) }
          { s with calls := s.calls.set i c' }
        else
          let newAvailable := item.available_quantity - 1
          let newDistributed := item.distributed_quantity + 1
          let r' := { s.record with
                      available_quantity := newAvailable,
                      distributed_quantity := newDistributed }
          let c' := { c with outcome := some (.success newAvailable newDistributed) }
          { record := r', calls := s.calls.set i c' }

/-- Run a whole schedule (a list of request indices, each index appearing
once per statement of that request). -/
def runSchedule (s : ConcState) (sched : List Nat) : ConcState :=
  sched.foldl concStep s

/-- Whether a request finished with a success response. -/
def DistCall.succeeded (c : DistCall) : Bool :=
  match c.outcome with
  | some (.success _ _) => true
  | _ => false

/-- Number of requests that finished with a success response. -/
def successCount (s : ConcState) : Nat :=
  s.calls.countP DistCall.succeeded

/-- The row holding the last unit of stock. -/
def lastUnitRecord : InventoryRecord :=
  { sampleRecord with
      total_quantity := 1, available_quantity := 1, distributed_quantity := 0 }

/-- Two concurrent distribute requests racing on `lastUnitRecord`. -/
def raceStart : ConcState :=
  { record := lastUnitRecord, calls := [DistCall.pending, DistCall.pending] }

/-- The interleaving SELECT₁, SELECT₂, UPDATE₁, UPDATE₂. -/
def raceSchedule : List Nat := [0, 1, 0, 1]

/-!
The atomic variant of the reservation, from the spin-results route shown
in src/backend/README.md: inside one transaction, `SELECT ... FOR UPDATE`
rejects when `available_quantity <= 0`, then
`UPDATE ... SET available_quantity = available_quantity - 1,
distributed_quantity = distributed_quantity + 1
WHERE ... AND available_quantity > 0` commits.  The row lock makes the
whole check-and-decrement one step, so concurrent calls serialize and a
concurrent execution is a sequence of these steps.
-/

/-- One atomic reservation: reject on `available_quantity <= 0`, else
decrement available and increment distributed in the same step. -/
def reserveUnitAtomic (r : InventoryRecord) : InventoryRecord × Bool :=
  if r.available_quantity ≤ 0 then
    (r, false)
  else
    ({ r with
        available_quantity := r.available_quantity - 1,
        distributed_quantity := r.distributed_quantity + 1 },
      true)

/-- Run `m` serialized atomic reservations, counting successes. -/
def runAtomicReserves : Nat → InventoryRecord → InventoryRecord × Nat
  | 0, r => (r, 0)
  | m + 1, r =>
      let (r', ok) := reserveUnitAtomic r
      let (r'', k) := runAtomicReserves m r'
      (r'', k + (if ok then 1 else 0))

/-- One admin or player operation applied to an existing row, as the
routes implement them.  `assign` on an existing `(agent_id, product_id)`
pair is rejected by the duplicate check before any write, so it carries
only its requested quantity; `adjust` carries the two optional quantity
fields of the PUT body. -/
inductive AdminOp where
  | assign (quantity : Int)
  | restock (delta : Int)
  | adjust (total_quantity available_quantity : Option Int)
  | distribute (quantity : Int)
  deriving Repr, DecidableEq

/-- Effect of one operation on an existing row (responses dropped).
`assign` is the duplicate rejection of POST /inventory, a no-op on the
row. -/
def applyOp (r : InventoryRecord) : AdminOp → InventoryRecord
  | .assign _ => r
  | .restock d => (restockRoute r d).1
  | .adjust t a => adjustUpdate r t a
  | .distribute q => (distributeStep r q).1

/-- Effect of a whole operation sequence on a row. -/
def applyOps (r : InventoryRecord) (ops : List AdminOp) : InventoryRecord :=
  ops.foldl applyOp r

/-- Well-formed inputs for one operation on row `r`: nonnegative restock
deltas and distribute quantities, and adjust calls that supply a new
available quantity `a` with `0 ≤ a ≤` the effective total, never a
supplied total of `0` (which the code's `||` treats as absent), and never
a total without an available quantity. -/
def wfOp (r : InventoryRecord) : AdminOp → Bool
  | .assign _ => true
  | .restock d => decide (0 ≤ d)
  | .adjust t a =>
      match a with
      | some a0 =>
          decide (0 ≤ a0) && decide (a0 ≤ effectiveTotal r t) && t != some 0
      | none => t.isNone
  | .distribute q => decide (0 ≤ q)

/-- Well-formedness of every operation of a sequence, each checked
against the row it is applied to. -/
def wfSeq : InventoryRecord → List AdminOp → Bool
  | _, [] => true
  | r, op :: ops => wfOp r op && wfSeq (applyOp r op) ops

/-- A sample well-formed operation sequence. -/
def demoOps : List AdminOp :=
  [AdminOp.restock 5, AdminOp.distribute 3, AdminOp.adjust none (some 4)]

/-- Sample body matching `sampleRecord`'s `(agent_id, product_id)` pair. -/
def sampleAssignBody : AssignBody :=
  { product_id := "p1", product_name := "Water Bottle",
    total_quantity := 10, agent_id := "a1", agent_name := "Agent One",
    location := "Nairobi" }

/-- The row of the spec's adjust example: 20 assigned, 15 available, 5
distributed. -/
def adjustedRecord : InventoryRecord :=
  { sampleRecord with
      total_quantity := 20, available_quantity := 15,
      distributed_quantity := 5 }

/-- A depleted row: everything distributed, nothing available. -/
def depletedRecord : InventoryRecord :=
  { sampleRecord with
      available_quantity := 0, distributed_quantity := 10 }

/-- A partly distributed row: 7 assigned, 5 available, 2 distributed. -/
def partlyDistributedRecord : InventoryRecord :=
  { sampleRecord with
      total_quantity := 7, available_quantity := 5,
      distributed_quantity := 2 }

/-!  Theorems. -/

/-- Claim C1 (code bug): the POST /inventory/distribute handler reads the
row and writes it in two separate statements, so two concurrent one-unit
calls racing on a row with a single available unit — interleaved as
SELECT₁, SELECT₂, UPDATE₁, UPDATE₂ — both receive a success response:
two successes from one unit of stock, where the no-overselling contract
(and the atomic FOR UPDATE variant of the spin-results route) allows at
most one. -/
theorem distribute_race_double_success :
    lastUnitRecord.available_quantity = 1 ∧
    successCount (runSchedule raceStart raceSchedule) = 2 := by decide

/-- The serialized atomic variant (spin-results route, src/backend/README.md)
never oversells: `m` reservations against a row yield exactly
`min m available` successes. -/
theorem runAtomicReserves_successes (m : Nat) (r : InventoryRecord) :
    (runAtomicReserves m r).2 = min m r.available_quantity.toNat := by
  induction m generalizing r with
  | zero => simp [runAtomicReserves]
  | succ m ih =>
    by_cases h : r.available_quantity ≤ 0
    · simp [runAtomicReserves, reserveUnitAtomic, h, ih]
      omega
    · simp [runAtomicReserves, reserveUnitAtomic, h, ih]
      omega

/-- Claim C9: the distribute handler accepts a caller-supplied quantity
and guards only with `available_quantity < quantity`, so a negative
quantity passes the guard: on a row with 5 available and 2 distributed,
`quantity = -3` succeeds, raises `available_quantity` to 8 and drives
`distributed_quantity` below zero. -/
theorem distribute_negative_quantity_goes_negative :
    (distributeStep partlyDistributedRecord (-3)).2 = .success 8 (-1) ∧
    (distributeStep partlyDistributedRecord (-3)).1.available_quantity = 8 ∧
    partlyDistributedRecord.available_quantity <
      (distributeStep partlyDistributedRecord (-3)).1.available_quantity ∧
    (distributeStep partlyDistributedRecord (-3)).1.distributed_quantity < 0 := by
  decide

/-- Claim C6 (code bug): the INSERT of POST /inventory names eight
columns but its VALUES clause supplies only five values (four
placeholders plus a literal `0`, against seven bound parameters), so the
statement is rejected by the datastore and a valid assign of a fresh
`(agent_id, product_id)` pair ends in the 500 error path instead of
creating the row. -/
theorem assign_insert_arity_mismatch :
    assignInsertColumns.length = 8 ∧ assignInsertValueSlots = 5 ∧
    assignInsertColumns.length ≠ assignInsertValueSlots ∧
    assignInsertPlaceholders ≠ assignInsertParamCount ∧
    createInventoryRoute [] sampleAssignBody = ([], .insertError) := by decide

/-- Claim C2 counterexample: a PUT /inventory/:id call that supplies a
new `total_quantity` but no `available_quantity` changes the total
without touching the other two columns, breaking
`total = available + distributed` on a row that satisfied it. -/
theorem adjust_total_only_breaks_invariant :
    Invariant sampleRecord ∧
    ¬ Invariant (applyOps sampleRecord [AdminOp.adjust (some 20) none]) := by
  decide

/-- Each well-formed operation preserves the ledger invariant. -/
theorem applyOp_invariant (r : InventoryRecord) (op : AdminOp)
    (hr : Invariant r) (hop : wfOp r op = true) : Invariant (applyOp r op) := by
  obtain ⟨h1, h2, h3⟩ := hr
  cases op with
  | assign q => exact ⟨h1, h2, h3⟩
  | restock d =>
    simp only [wfOp, decide_eq_true_eq] at hop
    by_cases hd : d = 0
    · simpa [applyOp, restockRoute, hd] using ⟨h1, h2, h3⟩
    · simp [applyOp, restockRoute, hd, Invariant]
      omega
  | distribute q =>
    simp only [wfOp, decide_eq_true_eq] at hop
    by_cases hq : r.available_quantity < q
    · simpa [applyOp, distributeStep, hq] using ⟨h1, h2, h3⟩
    · simp [applyOp, distributeStep, hq, Invariant]
      omega
  | adjust t a =>
    cases a with
    | none =>
      simp only [wfOp, Option.isNone_iff_eq_none] at hop
      subst hop
      simpa [applyOp, adjustUpdate] using ⟨h1, h2, h3⟩
    | some a0 =>
      simp only [wfOp, Bool.and_eq_true, decide_eq_true_eq, bne_iff_ne] at hop
      obtain ⟨⟨ha0, ha1⟩, ht⟩ := hop
      cases t with
      | none =>
        simp only [effectiveTotal] at ha1
        simp [applyOp, adjustUpdate, effectiveTotal, Invariant]
        omega
      | some t0 =>
        have ht0 : t0 ≠ 0 := by
          intro h
          exact ht (by rw [h])
        simp only [effectiveTotal, if_neg ht0] at ha1
        simp [applyOp, adjustUpdate, effectiveTotal, ht0, Invariant]
        omega

/-- Claim C2 (amended): for every sequence of assign / restock / adjust /
distribute operations on an existing row whose inputs are well formed —
nonnegative restock deltas and distribute quantities, and every adjust
supplying a new available quantity `a` with `0 ≤ a ≤` the effective
total, with any supplied total nonzero and never a total alone — the
invariant `total = available + distributed`, `available ≥ 0`,
`distributed ≥ 0` holds after each operation. -/
theorem invariant_preserved_of_wellFormed :
    ∀ (ops : List AdminOp) (r : InventoryRecord),
      Invariant r → wfSeq r ops = true → ∀ n : Nat,
        Invariant (applyOps r (ops.take n)) := by
  intro ops
  induction ops with
  | nil =>
    intro r hr _ n
    simpa [applyOps] using hr
  | cons op ops ih =>
    intro r hr hwf n
    simp only [wfSeq, Bool.and_eq_true] at hwf
    cases n with
    | zero => simpa [applyOps] using hr
    | succ n =>
      have hstep := applyOp_invariant r op hr hwf.1
      have := ih (applyOp r op) hstep hwf.2 n
      simpa [applyOps] using this

/-- Witness for claim C2: a concrete well-formed sequence on
`sampleRecord`, checked after its second operation. -/
theorem invariant_preserved_witness :
    wfSeq sampleRecord demoOps = true ∧
    Invariant (applyOps sampleRecord (demoOps.take 2)) :=
  ⟨by decide,
   invariant_preserved_of_wellFormed demoOps sampleRecord (by decide) (by decide) 2⟩

/-- Claim C3: a distribute call for a positive requested quantity against
a row whose available quantity is nonpositive, or below the request,
returns the 400 `'Insufficient stock'` rejection and leaves every field
of the row untouched. -/
theorem distribute_insufficient_rejects_unchanged (r : InventoryRecord) (q : Int)
    (hq : 1 ≤ q)
    (h : r.available_quantity ≤ 0 ∨ r.available_quantity < q) :
    distributeStep r q = (r, .insufficientStock r.available_quantity q) ∧
    distributeStatus (distributeStep r q).2 = 400 ∧
    distributeMessage (distributeStep r q).2 = some "Insufficient stock" := by
  have hlt : r.available_quantity < q := by omega
  refine ⟨?_, ?_, ?_⟩ <;> simp [distributeStep, hlt, distributeStatus, distributeMessage]

/-- Witness for claim C3: a one-unit request on a depleted row. -/
theorem distribute_insufficient_witness :
    (1:Int) ≤ 1 ∧
    depletedRecord.available_quantity ≤ 0 ∧
    distributeStep depletedRecord 1 =
      (depletedRecord, .insufficientStock 0 1) :=
  ⟨by decide, by decide,
   (distribute_insufficient_rejects_unchanged depletedRecord 1 (by decide)
      (Or.inl (by decide))).1⟩

/-- Claim C4: on a row with exactly one available unit, a one-unit
distribute call succeeds and leaves zero available, and an immediately
following one-unit distribute on the same row is rejected with
insufficient stock, changing nothing. -/
theorem depletion_boundary (r : InventoryRecord)
    (h : r.available_quantity = 1) :
    (distributeStep r 1).2 = .success 0 (r.distributed_quantity + 1) ∧
    (distributeStep r 1).1.available_quantity = 0 ∧
    distributeStep (distributeStep r 1).1 1 =
      ((distributeStep r 1).1, .insufficientStock 0 1) := by
  have hnot : ¬ r.available_quantity < 1 := by omega
  refine ⟨?_, ?_, ?_⟩ <;> simp [distributeStep, hnot, h]

/-- Witness for claim C4: the last-unit row. -/
theorem depletion_boundary_witness :
    lastUnitRecord.available_quantity = 1 ∧
    distributeStep (distributeStep lastUnitRecord 1).1 1 =
      ((distributeStep lastUnitRecord 1).1, .insufficientStock 0 1) :=
  ⟨by decide, (depletion_boundary lastUnitRecord (by decide)).2.2⟩

/-- Claim C5: POST /inventory for an `(agent_id, product_id)` pair that
already has a row answers the 400 duplicate rejection and leaves the
table — in particular the existing row — unchanged; the route never
updates an existing row. -/
theorem duplicate_assign_rejected (store : List InventoryRecord) (b : AssignBody)
    (hb : assignBodyValid b = true)
    (hdup : pairExists store b.agent_id b.product_id = true) :
    createInventoryRoute store b = (store, .duplicate) ∧
    (createInventoryRoute store b).1 = store := by
  constructor <;> simp [createInventoryRoute, hb, hdup]

/-- Witness for claim C5: assigning `sampleRecord`'s pair again. -/
theorem duplicate_assign_witness :
    assignBodyValid sampleAssignBody = true ∧
    pairExists [sampleRecord] sampleAssignBody.agent_id sampleAssignBody.product_id = true ∧
    createInventoryRoute [sampleRecord] sampleAssignBody = ([sampleRecord], .duplicate) :=
  ⟨by decide, by decide,
   (duplicate_assign_rejected [sampleRecord] sampleAssignBody (by decide) (by decide)).1⟩

/-- Claim C7 counterexample: on the spec's example row
(total 20, available 15, distributed 5), an adjust call supplying
`total_quantity = 0` together with `available_quantity = 5` stores
`distributed_quantity = 15` — computed from the *existing* total because
`total_quantity || existing.total_quantity` treats the supplied `0` as
absent — while the claim requires the supplied total to be used,
i.e. `0 - 5`. -/
theorem adjust_zero_total_not_recomputed :
    (adjustUpdate adjustedRecord (some 0) (some 5)).distributed_quantity = 15 ∧
    (adjustUpdate adjustedRecord (some 0) (some 5)).total_quantity = 0 ∧
    ((0:Int) - 5 ≠ 15) := by decide

/-- Claim C7 (amended): whenever PUT /inventory/:id supplies a new
available quantity, the stored distributed quantity afterwards equals
the total minus the new available quantity — the new total when a
*nonzero* one is supplied in the same call (a supplied `0` falls back to
the existing total), otherwise the existing one.  In particular
20/15/5 adjusted to available 10 yields distributed 10. -/
theorem adjust_recomputes_distributed (r : InventoryRecord)
    (t : Option Int) (a : Int) (ht : t ≠ some 0) :
    (adjustUpdate r t (some a)).distributed_quantity =
      (match t with
       | some t0 => t0
       | none => r.total_quantity) - a := by
  cases t with
  | none => simp [adjustUpdate, effectiveTotal]
  | some t0 =>
    have ht0 : t0 ≠ 0 := by
      intro h
      exact ht (by rw [h])
    simp [adjustUpdate, effectiveTotal, ht0]

/-- Witness for claim C7: the spec's example, no new total supplied. -/
theorem adjust_recomputes_witness :
    ((none : Option Int) ≠ some 0) ∧
    (adjustUpdate adjustedRecord none (some 10)).distributed_quantity = 20 - 10 :=
  ⟨by decide, adjust_recomputes_distributed adjustedRecord none 10 (by decide)⟩

/-- Claim C8 counterexample: a restock with delta `-3` is not rejected:
it succeeds and rewrites the row, shrinking total and available by 3 —
the route's only quantity check is JavaScript truthiness. -/
theorem restock_negative_delta_accepted :
    restockRoute sampleRecord (-3) =
      ({ sampleRecord with available_quantity := 7, total_quantity := 7 },
        .success 7 7) ∧
    (restockRoute sampleRecord (-3)).1 ≠ sampleRecord := by decide

/-- Claim C8 (amended): a restock whose delta is zero (JavaScript-falsy)
is rejected by the required-field check before the row is touched and
leaves the row unchanged; for every *nonzero* delta — positive or
negative — total and available quantity each change by exactly the delta
and the distributed quantity is unchanged. -/
theorem restock_zero_rejected_nonzero_applied (r : InventoryRecord) (d : Int) :
    (d = 0 → restockRoute r d = (r, .missingRequired)) ∧
    (d ≠ 0 →
      (restockRoute r d).1.total_quantity = r.total_quantity + d ∧
      (restockRoute r d).1.available_quantity = r.available_quantity + d ∧
      (restockRoute r d).1.distributed_quantity = r.distributed_quantity ∧
      (restockRoute r d).2 =
        .success (r.available_quantity + d) (r.total_quantity + d)) := by
  constructor
  · intro h
    simp [restockRoute, h]
  · intro h
    refine ⟨?_, ?_, ?_, ?_⟩ <;> simp [restockRoute, h]

/-- Witness for claim C8: restocking `sampleRecord` by 5. -/
theorem restock_witness :
    ((5:Int) ≠ 0) ∧
    (restockRoute sampleRecord 5).1.total_quantity =
      sampleRecord.total_quantity + 5 :=
  ⟨by decide,
   ((restock_zero_rejected_nonzero_applied sampleRecord 5).2 (by decide)).1⟩

/-- Claim C10: POST /inventory/check-stock never mutates the table and
never reports not-found: with both identifiers supplied it always
answers 200, and both a missing `(agent_id, product_id)` pair and a pair
whose row has zero available quantity produce the identical body
`{available: false, quantity: 0, product_name: null}`. -/
theorem checkStock_readonly_conflates_missing_and_depleted
    (store : List InventoryRecord) (p a : String)
    (hp : p ≠ "") (ha : a ≠ "") :
    (checkStockRoute store p a).1 = store ∧
    checkStockStatus (checkStockRoute store p a).2 = 200 ∧
    ((∀ r ∈ store, ¬ (r.product_id = p ∧ r.agent_id = a)) →
      (checkStockRoute store p a).2 = .ok ⟨false, 0, none⟩) ∧
    ((∀ r ∈ store, r.product_id = p → r.agent_id = a →
        r.available_quantity = 0) →
      (checkStockRoute store p a).2 = .ok ⟨false, 0, none⟩) := by
  have hcond : ¬ (p = "" ∨ a = "") := by
    intro h
    cases h with
    | inl h => exact hp h
    | inr h => exact ha h
  refine ⟨?_, ?_, ?_, ?_⟩
  · unfold checkStockRoute
    rw [if_neg hcond]
    cases store.find? (fun r =>
        r.product_id == p && r.agent_id == a &&
          decide (0 < r.available_quantity)) <;> rfl
  · unfold checkStockRoute
    rw [if_neg hcond]
    cases store.find? (fun r =>
        r.product_id == p && r.agent_id == a &&
          decide (0 < r.available_quantity)) <;> rfl
  · intro hmiss
    have hnone : store.find? (fun r =>
        r.product_id == p && r.agent_id == a &&
          decide (0 < r.available_quantity)) = none := by
      rw [List.find?_eq_none]
      intro r hr
      simp only [Bool.and_eq_true, beq_iff_eq, decide_eq_true_eq, not_and]
      intro hpa hlt
      exact absurd ⟨hpa.1, hpa.2⟩ (hmiss r hr)
    unfold checkStockRoute
    rw [if_neg hcond, hnone]
  · intro hdep
    have hnone : store.find? (fun r =>
        r.product_id == p && r.agent_id == a &&
          decide (0 < r.available_quantity)) = none := by
      rw [List.find?_eq_none]
      intro r hr
      simp only [Bool.and_eq_true, beq_iff_eq, decide_eq_true_eq, not_and]
      intro hpa hlt
      have := hdep r hr hpa.1 hpa.2
      omega
    unfold checkStockRoute
    rw [if_neg hcond, hnone]

/-- Witness for claim C10: a store holding only a depleted matching row
answers exactly like an empty store. -/
theorem checkStock_witness :
    ("p1" ≠ "" ∧ "a1" ≠ "") ∧
    (checkStockRoute [depletedRecord] "p1" "a1").2 = .ok ⟨false, 0, none⟩ ∧
    (checkStockRoute [depletedRecord] "p1" "a1").1 = [depletedRecord] :=
  ⟨⟨by decide, by decide⟩,
   (checkStock_readonly_conflates_missing_and_depleted [depletedRecord] "p1" "a1"
      (by decide) (by decide)).2.2.2 (by decide),
   (checkStock_readonly_conflates_missing_and_depleted [depletedRecord] "p1" "a1"
      (by decide) (by decide)).1⟩
